import Mathlib

/-
Verification of the livekit SFU publisher-side receiver pipeline and
subscription reconciliation engine, as a shallow embedding in Lean 4.

The Go sources embedded here:
  pkg/rtc/uptrackmanager.go        permission matrix, versioned updates
  sfu WebRTCReceiver (part_000)    forwarding loop, buffer lookup, timestamps
  rtc SubscriptionManager (part_001) reconciler and trackSubscription state

Go maps are modelled as association lists whose insert replaces the key;
machine integers are Nat and Int with explicit mod 2 to the needed power;
the float64 computation in GetReferenceLayerRTPTimestamp is modelled over
the rationals (exact on the dyadic values used in the witnesses, where
float64 arithmetic is also exact).
-/

/-! ## Up-track manager: permission data model (pkg/rtc/uptrackmanager.go) -/

/-- livekit.TrackPermission: grants for one subscriber, identified by
identity or SID; either all tracks or an allowlist of track SIDs. -/
structure TrackPermission where
  participantIdentity : String
  participantSid : String
  allTracks : Bool
  trackSids : List String
deriving DecidableEq

/-- livekit.SubscriptionPermission: the whole permission update payload. -/
structure SubscriptionPermission where
  allParticipants : Bool
  trackPermissions : List TrackPermission
deriving DecidableEq

/-- Modelled from the spec: utils.TimedVersion, a monotonic version with a
timestamp and a tiebreaker, ordered lexicographically; the protocol library
that implements it is not part of this repository snapshot. -/
structure TimedVersion where
  unixMicro : Int
  ticks : Int
deriving DecidableEq

/-- Modelled from the spec: TimedVersion.After, the strict lexicographic
order on (timestamp, tiebreaker). -/
def tvAfter (a b : TimedVersion) : Bool :=
  a.unixMicro > b.unixMicro || (a.unixMicro == b.unixMicro && a.ticks > b.ticks)

/-- Modelled from the spec: TimedVersion.Update advances the held version to
the other one when the other is strictly after it. -/
def tvUpdate (cur other : TimedVersion) : TimedVersion :=
  if tvAfter other cur then other else cur

/-- The permission-relevant fields of UpTrackManager (the track registry and
callbacks play no part in the permission claims). -/
structure UpTrackManagerState where
  subscriptionPermission : Option SubscriptionPermission
  subscriptionPermissionVersion : Option TimedVersion
  subscriberPermissions : Option (List (String × TrackPermission))
deriving DecidableEq

/-- NewUpTrackManager: all permission state starts unset (nil). -/
def newUpTrackManager : UpTrackManagerState :=
  { subscriptionPermission := none
    subscriptionPermissionVersion := none
    subscriberPermissions := none }

/-- Go map insert over an association list: the new key replaces any
existing entry for the same key. -/
def insertEntry {α : Type} (m : List (String × α)) (k : String) (v : α) :
    List (String × α) :=
  (k, v) :: m.filter (fun kv => kv.1 != k)

/-- UpTrackManager.hasPermissionLocked: nil matrix allows everyone; a
subscriber missing from the matrix is denied; AllTracks allows; otherwise
the trackID must appear in the allowlist. -/
def hasPermissionLocked (subscriberPermissions : Option (List (String × TrackPermission)))
    (trackID subscriberIdentity : String) : Bool :=
  match subscriberPermissions with
  | none => true
  | some m =>
    match m.lookup subscriberIdentity with
    | none => false
    | some perms => perms.allTracks || perms.trackSids.any (fun sid => sid == trackID)

/-- ErrSubscriptionPermissionNeedsId is the only error permission parsing
can raise. -/
inductive PermErr
| needsId
deriving DecidableEq

/-- The per-entry loop of parseSubscriptionPermissionsLocked: an entry with
an identity is stored under it; an entry with only a SID is resolved (the
resolver maps a participant SID to an identity) and skipped when the
resolver finds nobody; an entry with neither fails with needsId. -/
def parsePerms (resolver : String → Option String) :
    List TrackPermission → List (String × TrackPermission) →
      Except PermErr (List (String × TrackPermission))
  | [], acc => Except.ok acc
  | tp :: rest, acc =>
    if tp.participantIdentity = "" then
      if tp.participantSid = "" then Except.error PermErr.needsId
      else
        match resolver tp.participantSid with
        | none => parsePerms resolver rest acc
        | some ident => parsePerms resolver rest (insertEntry acc ident tp)
    else parsePerms resolver rest (insertEntry acc tp.participantIdentity tp)

/-- UpTrackManager.parseSubscriptionPermissionsLocked: AllParticipants wins
and clears the matrix to nil; otherwise the per-participant entries are
folded into a fresh map. -/
def parseSubscriptionPermissionsLocked (sp : SubscriptionPermission)
    (resolver : String → Option String) :
    Except PermErr (Option (List (String × TrackPermission))) :=
  if sp.allParticipants then Except.ok none
  else (parsePerms resolver sp.trackPermissions []).map some

/-- The tail of UpdateSubscriptionPermission after the version handling: the
permission is stored as received; nil permission returns early; otherwise the
parse result either replaces the matrix (and revocation runs, the Bool) or
the error is returned with the previous matrix retained. -/
def finishUpdate (u : UpTrackManagerState) (sp : Option SubscriptionPermission)
    (resolverBySid : String → Option String) :
    UpTrackManagerState × Except PermErr Unit × Bool :=
  let u1 := { u with subscriptionPermission := sp }
  match sp with
  | none => (u1, Except.ok (), false)
  | some p =>
    match parseSubscriptionPermissionsLocked p resolverBySid with
    | Except.error e => (u1, Except.error e, false)
    | Except.ok matrix =>
      ({ u1 with subscriberPermissions := matrix }, Except.ok (), true)

/-- UpTrackManager.UpdateSubscriptionPermission. A non-nil incoming version
that is not strictly after a held version is ignored (full no-op); a strictly
newer one advances the held version. With no version given, the generated
local version (genVersion, from the VersionGenerator) is adopted or advanced
to. The returned Bool records whether maybeRevokeSubscriptions ran. -/
def updateSubscriptionPermission (u : UpTrackManagerState)
    (sp : Option SubscriptionPermission) (timedVersion : Option TimedVersion)
    (resolverBySid : String → Option String) (genVersion : TimedVersion) :
    UpTrackManagerState × Except PermErr Unit × Bool :=
  match timedVersion with
  | some tv =>
    match u.subscriptionPermissionVersion with
    | some cur =>
      if tvAfter tv cur then
        finishUpdate
          { u with subscriptionPermissionVersion := some (tvUpdate cur tv) }
          sp resolverBySid
      else (u, Except.ok (), false)
    | none =>
      finishUpdate { u with subscriptionPermissionVersion := some tv } sp resolverBySid
  | none =>
    match u.subscriptionPermissionVersion with
    | none =>
      finishUpdate { u with subscriptionPermissionVersion := some genVersion }
        sp resolverBySid
    | some cur =>
      finishUpdate
        { u with subscriptionPermissionVersion := some (tvUpdate cur genVersion) }
        sp resolverBySid

/-- UpTrackManager.SubscriptionPermission: with no held version both results
are nil; otherwise the stored permission and the held version. -/
def subscriptionPermissionSnapshot (u : UpTrackManagerState) :
    Option SubscriptionPermission × Option TimedVersion :=
  match u.subscriptionPermissionVersion with
  | none => (none, none)
  | some v => (u.subscriptionPermission, some v)

/-- The incoming version passes the monotonicity gate of
UpdateSubscriptionPermission: absent, or no version held, or strictly after
the held one. -/
def versionOk (u : UpTrackManagerState) (tv : Option TimedVersion) : Bool :=
  match tv, u.subscriptionPermissionVersion with
  | some t, some cur => tvAfter t cur
  | _, _ => true

/-! ## WebRTCReceiver: per-layer forwarding loop (sfu, part_000) -/

/-- buffer.ExtPacket as the forwarding loop consumes it: the SVC spatial and
temporal indices (minus one when absent), plus the header fields the tracker
observes; sequenceNumber stands for the raw packet identity. -/
structure ExtPacket where
  spatial : Int
  temporal : Int
  marker : Bool
  timestamp : Nat
  sequenceNumber : Nat
deriving DecidableEq

/-- The observable actions of one iteration of WebRTCReceiver.forwardRTP:
a tracker observation, the spreader broadcast (each DownTrack gets
WriteRTP(pkt, spatialLayer)), and the RED sidecar write. -/
inductive FwdEvent
| observe (spatialLayer : Int) (temporal : Int)
| broadcast (pkt : ExtPacket) (spatialLayer : Int)
| redWrite (pkt : ExtPacket) (spatialLayer : Int)
deriving DecidableEq

/-- The spatial layer the loop forwards a packet on: pkt.Spatial when it is
at least zero (SVC packets carry their own layer), else the loop layer. -/
def forwardSpatialLayer (layer : Int) (p : ExtPacket) : Int :=
  if 0 ≤ p.spatial then p.spatial else layer

/-- One iteration of the forwardRTP loop body, after the packet was read:
pick the spatial tracker (the tracker for pkt.Spatial is created on demand,
so it exists whenever pkt.Spatial is at least 0; otherwise the layer tracker,
which may be absent), observe, broadcast, then invoke the RED packet writer
when it is set. -/
def forwardOne (layer : Int) (trackerAtLayer redSet : Bool) (p : ExtPacket) :
    List FwdEvent :=
  let sl := forwardSpatialLayer layer p
  (if 0 ≤ p.spatial ∨ trackerAtLayer = true
      then [FwdEvent.observe sl p.temporal] else [])
    ++ [FwdEvent.broadcast p sl]
    ++ (if redSet then [FwdEvent.redWrite p sl] else [])

/-- The whole forwarding episode over the packets read before EOF. -/
def forwardTrace (layer : Int) (trackerAtLayer redSet : Bool)
    (pkts : List ExtPacket) : List FwdEvent :=
  pkts.flatMap (forwardOne layer trackerAtLayer redSet)

/-- Events that deliver the packet onward (broadcast or RED write), as
opposed to tracker bookkeeping. -/
def isDeliveryEvt : FwdEvent → Bool
  | FwdEvent.broadcast _ _ => true
  | FwdEvent.redWrite _ _ => true
  | _ => false

/-! ## WebRTCReceiver: buffer lookup and ReadRTP (sfu, part_000) -/

/-- DefaultMaxLayerSpatial: spatial layers run 0..2, so the receiver holds
SpatialMax + 1 = 3 buffers. -/
def DefaultMaxLayerSpatial : Nat := 2

/-- WebRTCReceiver.getBufferLocked, generic in the buffer type: SVC codecs
keep only the full-quality buffer, so every lookup is redirected to the last
index; an index at or past the array length yields nil. (Go would panic on a
negative index; all callers pass non-negative layers.) -/
def getBufferLocked {β : Type} (isSVC : Bool) (buffers : List (Option β))
    (layer : Int) : Option β :=
  let l : Int := if isSVC then (buffers.length : Int) - 1 else layer
  if 0 ≤ l then buffers.getD l.toNat none else none

/-- Errors ReadRTP can return: ErrBufferNotFound from the receiver itself,
or whatever the underlying bucket GetPacket failed with. -/
inductive ReadErr
| bufferNotFound
| packetFetchFailed
deriving DecidableEq

/-- WebRTCReceiver.ReadRTP: resolve the layer buffer (with SVC redirection)
and fetch the packet for the sequence number from it; no buffer means
ErrBufferNotFound. -/
def readRTP {β : Type} (isSVC : Bool) (buffers : List (Option β))
    (getPacket : β → Nat → Except Unit Nat) (layer : Nat) (sn : Nat) :
    Except ReadErr Nat :=
  match getBufferLocked isSVC buffers (Int.ofNat layer) with
  | none => Except.error ReadErr.bufferNotFound
  | some b =>
    match getPacket b sn with
    | Except.ok n => Except.ok n
    | Except.error _ => Except.error ReadErr.packetFetchFailed

/-! ## WebRTCReceiver: reference-layer RTP timestamp (sfu, part_000) -/

/-- The NTP/RTP pair of the latest RTCP sender report of a layer, as
GetSenderReportDataExt exposes it: ntpTimestamp is a uint64, rtpTimestamp a
uint32. -/
structure SenderReportData where
  ntpTimestamp : Nat
  rtpTimestamp : Nat
deriving DecidableEq

/-- A layer buffer as GetReferenceLayerRTPTimestamp consumes it: just its
sender-report extension, which may be absent. -/
structure BufferSR where
  senderReport : Option SenderReportData
deriving DecidableEq

/-- The Go expression int64(a - b) on uint64 operands: wrap the difference
modulo 2 to the 64 and reinterpret the result as a signed 64-bit value. -/
def uint64SubToInt64 (a b : Nat) : Int :=
  let d : Nat := (a % 2 ^ 64 + 2 ^ 64 - b % 2 ^ 64) % 2 ^ 64
  if d < 2 ^ 63 then (d : Int) else (d : Int) - 2 ^ 64

/-- The Go conversion uint32(f) of a float value: truncation toward zero
(the fractional part is discarded), here on an exact rational, then reduced
modulo 2 to the 32 as on amd64. -/
def ratTrunc (q : ℚ) : Int :=
  Int.tdiv q.num (q.den : Int)

/-- The error cases of GetReferenceLayerRTPTimestamp, one per message the Go
code formats. -/
inductive RefTsErr
| invalidLayer
| layerSrNotAvailable
| invalidRefLayer
| refSrNotAvailable
deriving DecidableEq

/-- WebRTCReceiver.GetReferenceLayerRTPTimestamp. The float64 pipeline
ntpDiff = float64(int64(refNTP - layerNTP)) / 2^32 and
normalizedTS = layerRTP + uint32(ntpDiff * clockRate) is modelled exactly
over the rationals with truncation toward zero; uint32 additions and
subtractions are mod 2 to the 32. -/
def getReferenceLayerRTPTimestamp (isSVC : Bool) (buffers : List (Option BufferSR))
    (clockRate : Nat) (ts : Nat) (layer referenceLayer : Int) :
    Except RefTsErr Nat :=
  if layer = referenceLayer then Except.ok ts
  else
    match getBufferLocked isSVC buffers layer with
    | none => Except.error RefTsErr.invalidLayer
    | some bLayer =>
      match bLayer.senderReport with
      | none => Except.error RefTsErr.layerSrNotAvailable
      | some srLayer =>
        if srLayer.ntpTimestamp = 0 then Except.error RefTsErr.layerSrNotAvailable
        else
          match getBufferLocked isSVC buffers referenceLayer with
          | none => Except.error RefTsErr.invalidRefLayer
          | some bRef =>
            match bRef.senderReport with
            | none => Except.error RefTsErr.refSrNotAvailable
            | some srRef =>
              if srRef.ntpTimestamp = 0 then Except.error RefTsErr.refSrNotAvailable
              else
                let scaled : Int :=
                  ratTrunc ((uint64SubToInt64 srRef.ntpTimestamp srLayer.ntpTimestamp : ℚ)
                    / 2 ^ 32 * (clockRate : ℚ))
                let normalizedTS : Nat :=
                  (srLayer.rtpTimestamp + (scaled % 2 ^ 32).toNat) % 2 ^ 32
                Except.ok ((ts +
                  (srRef.rtpTimestamp % 2 ^ 32 + 2 ^ 32 - normalizedTS) % 2 ^ 32) % 2 ^ 32)

/-- The sender report GetReferenceLayerRTPTimestamp accepts for a layer:
the buffer exists, carries a report, and its NTP timestamp is non-zero. -/
def layerSR (isSVC : Bool) (buffers : List (Option BufferSR)) (layer : Int) :
    Option SenderReportData :=
  match getBufferLocked isSVC buffers layer with
  | none => none
  | some b =>
    match b.senderReport with
    | none => none
    | some sr => if sr.ntpTimestamp = 0 then none else some sr

/-- The reference-layer timestamp exactly as the specification words it,
with round (nearest integer) where the code truncates. -/
def specRefTimestamp (srL srR : SenderReportData) (clockRate ts : Nat) : Nat :=
  (((ts : Int) + srR.rtpTimestamp - srL.rtpTimestamp
      - round ((uint64SubToInt64 srR.ntpTimestamp srL.ntpTimestamp : ℚ)
          / 2 ^ 32 * (clockRate : ℚ))) % (2 ^ 32)).toNat

/-! ## Subscription manager and trackSubscription (rtc, part_001) -/

/-- The fields of trackSubscription the reconciler reads and writes.
hasSubscribedTrack stands for subscribedTrack being non-nil, the notifier
flags for the change and removal notifiers being installed, and
subStartedAt holds an abstract instant. -/
structure TrackSubM where
  desired : Bool
  hasPermission : Bool
  hasChangedNotifier : Bool
  hasRemovedNotifier : Bool
  hasSubscribedTrack : Bool
  eventSent : Bool
  numAttempts : Int
  bound : Bool
  subStartedAt : Option Int
deriving DecidableEq

/-- newTrackSubscription: everything cleared, permission defaults to allow. -/
def newTrackSub : TrackSubM :=
  { desired := false
    hasPermission := true
    hasChangedNotifier := false
    hasRemovedNotifier := false
    hasSubscribedTrack := false
    eventSent := false
    numAttempts := 0
    bound := false
    subStartedAt := none }

/-- trackSubscription.setDesired: setting desired always restamps
subStartedAt; on no change it returns false early; on a change to desired
the attempt counter is cleared, on a change to undesired the notifiers are
dropped. Returns the new record and whether desired changed. -/
def setDesiredM (s : TrackSubM) (now : Int) (d : Bool) : TrackSubM × Bool :=
  let s1 := if d then { s with subStartedAt := some now } else s
  if s1.desired == d then (s1, false)
  else
    let s2 := { s1 with desired := d }
    if d then ({ s2 with numAttempts := 0 }, true)
    else ({ s2 with hasChangedNotifier := false, hasRemovedNotifier := false }, true)

/-- trackSubscription.needsSubscribe. -/
def needsSubscribe (s : TrackSubM) : Bool :=
  s.desired && !s.hasSubscribedTrack

/-- trackSubscription.needsUnsubscribe. -/
def needsUnsubscribe (s : TrackSubM) : Bool :=
  !s.desired && s.hasSubscribedTrack

/-- trackSubscription.needsBind. -/
def needsBind (s : TrackSubM) : Bool :=
  s.desired && s.hasSubscribedTrack && !s.bound

/-- trackSubscription.durationSinceStart at the abstract instant now. -/
def durationSinceStart (s : TrackSubM) (now : Int) : Int :=
  match s.subStartedAt with
  | none => 0
  | some t => now - t

/-- trackSubscription.recordAttempt: a success clears the counter; the first
failure restamps subStartedAt, every failure increments the counter. -/
def recordAttempt (s : TrackSubM) (now : Int) (success : Bool) : TrackSubM :=
  if success then { s with numAttempts := 0 }
  else
    let s1 := if s.numAttempts == 0 then { s with subStartedAt := some now } else s
    { s1 with numAttempts := s1.numAttempts + 1 }

/-- The errors subscribe can fail with, as reconcileSubscription classifies
them; otherErr stands for any error outside the named set. -/
inductive SubErr
| noTrackPermission
| noSubscribePermission
| noReceiver
| notOpen
| trackNotAttached
| trackNotFound
| trackNotBound
| otherErr
deriving DecidableEq

/-- trackSubscription.maybeRecordError: the eventSent once-flag guards the
TrackSubscribeFailed telemetry; the emitted (error, isUserError) events are
returned. -/
def maybeRecordError (s : TrackSubM) (err : SubErr) (isUserError : Bool) :
    TrackSubM × List (SubErr × Bool) :=
  if s.eventSent then (s, [])
  else ({ s with eventSent := true }, [(err, isUserError)])

/-- The errors reconcileSubscription keeps retrying without consequence
beyond telemetry: permission, receiver, open and attachment problems. -/
def isRetriableErr : SubErr → Bool
  | SubErr.noTrackPermission | SubErr.noSubscribePermission | SubErr.noReceiver
  | SubErr.notOpen | SubErr.trackNotAttached => true
  | _ => false

/-- The side effects of one reconcileSubscription call: the
TrackSubscribeRequested telemetry, TrackSubscribeFailed telemetry events
(error, isUserError), the OnSubcriptionError callback, and a queued
reconcile. -/
structure ReconcileEffects where
  requestedTelemetry : Bool
  failures : List (SubErr × Bool)
  errorCallback : Bool
  queuedReconcile : Bool
deriving DecidableEq

/-- No side effects. -/
def noEffects : ReconcileEffects :=
  { requestedTelemetry := false
    failures := []
    errorCallback := false
    queuedReconcile := false }

/-- SubscriptionManager.reconcileSubscription on one subscription record.
canRec is the canReconcile guard; subscribeResult abstracts the outcome of
the subscribe call (none is success, the success bookkeeping beyond
recordAttempt lives in the manager-level model). Returns the new record,
the effects, and whether the needsUnsubscribe path asks the manager to
delete the record from its map. -/
def reconcileSub (canRec : Bool) (s : TrackSubM) (now nfTimeout subTimeout : Int)
    (subscribeResult : Option SubErr) :
    TrackSubM × ReconcileEffects × Bool :=
  if canRec then
    if needsSubscribe s then
      let req := s.numAttempts == 0
      match subscribeResult with
      | none =>
        (recordAttempt s now true, { noEffects with requestedTelemetry := req }, false)
      | some err =>
        let s1 := recordAttempt s now false
        if isRetriableErr err then
          if durationSinceStart s1 now > subTimeout then
            ((maybeRecordError s1 err true).1,
             { requestedTelemetry := req, failures := (maybeRecordError s1 err true).2,
               errorCallback := false, queuedReconcile := false }, false)
          else (s1, { noEffects with requestedTelemetry := req }, false)
        else if err == SubErr.trackNotFound then
          if durationSinceStart s1 now > nfTimeout then
            ((setDesiredM (maybeRecordError s1 err true).1 now false).1,
             { requestedTelemetry := req, failures := (maybeRecordError s1 err true).2,
               errorCallback := false, queuedReconcile := true }, false)
          else (s1, { noEffects with requestedTelemetry := req }, false)
        else
          if durationSinceStart s1 now > subTimeout then
            ((maybeRecordError s1 err false).1,
             { requestedTelemetry := req, failures := (maybeRecordError s1 err false).2,
               errorCallback := true, queuedReconcile := false }, false)
          else (s1, { noEffects with requestedTelemetry := req }, false)
    else if needsUnsubscribe s then
      (s, noEffects, !s.desired)
    else if needsBind s then
      if durationSinceStart s now > subTimeout then
        ((maybeRecordError s SubErr.trackNotBound false).1,
         { noEffects with
           failures := (maybeRecordError s SubErr.trackNotBound false).2
           errorCallback := true }, false)
      else (s, noEffects, false)
    else (s, noEffects, false)
  else (s, noEffects, false)

/-- The subscription map of SubscriptionManager. -/
structure SMState where
  subscriptions : List (String × TrackSubM)
deriving DecidableEq

/-- The telemetry events the subscription engine can emit. -/
inductive TelemetryEvent
| subscribeRequested (trackID : String)
| subscribeFailed (trackID : String) (err : SubErr) (isUserError : Bool)
| subscribed (trackID : String)
| unsubscribed (trackID : String)
deriving DecidableEq

/-- SubscriptionManager.SubscribeToTrack: take or create the record, set
desired; a reconcile is always queued (the Bool). -/
def subscribeToTrackM (m : SMState) (now : Int) (id : String) : SMState × Bool :=
  let s := (m.subscriptions.lookup id).getD newTrackSub
  let s1 := (setDesiredM s now true).1
  (⟨insertEntry m.subscriptions id s1⟩, true)

/-- SubscriptionManager.UnsubscribeFromTrack: missing record is a no-op;
otherwise clear desired and queue a reconcile when it changed (the Bool). -/
def unsubscribeFromTrackM (m : SMState) (now : Int) (id : String) : SMState × Bool :=
  match m.subscriptions.lookup id with
  | none => (m, false)
  | some s =>
    (⟨insertEntry m.subscriptions id (setDesiredM s now false).1⟩,
     (setDesiredM s now false).2)

/-- The telemetry a reconcileSubscription call emits for a track. -/
def effectsToEvents (id : String) (eff : ReconcileEffects) : List TelemetryEvent :=
  (if eff.requestedTelemetry then [TelemetryEvent.subscribeRequested id] else [])
    ++ eff.failures.map (fun f => TelemetryEvent.subscribeFailed id f.1 f.2)

/-- The reconcile worker acting on one queued trackID: look the record up
(a missing record is a no-op here) and run reconcileSubscription, deleting
the record from the map when the needsUnsubscribe path succeeded with
desired still false. -/
def reconcileSubscriptionMgr (m : SMState) (canRec : Bool)
    (now nfTimeout subTimeout : Int) (id : String)
    (subscribeResult : Option SubErr) : SMState × List TelemetryEvent :=
  match m.subscriptions.lookup id with
  | none => (m, [])
  | some s =>
    let r := reconcileSub canRec s now nfTimeout subTimeout subscribeResult
    let subs :=
      if r.2.2 then m.subscriptions.filter (fun kv => kv.1 != id)
      else insertEntry m.subscriptions id r.1
    (⟨subs⟩, effectsToEvents id r.2.1)

/-- trackSubscription.maybeRecordSuccess, reached only from the OnBind
callback of a subscribed track: with a subscribed track present it emits the
TrackSubscribed telemetry (first-time flag from eventSent) and sets the
once-flag. -/
def maybeRecordSuccess (s : TrackSubM) (id : String) :
    TrackSubM × List TelemetryEvent :=
  if s.hasSubscribedTrack then
    ({ s with eventSent := true }, [TelemetryEvent.subscribed id])
  else (s, [])

/-! ## Theorems -/

/-- finishUpdate never touches the version field it was handed. -/
theorem finishUpdate_version (u : UpTrackManagerState)
    (sp : Option SubscriptionPermission) (res : String → Option String) :
    (finishUpdate u sp res).1.subscriptionPermissionVersion
      = u.subscriptionPermissionVersion := by
  unfold finishUpdate
  cases sp with
  | none => rfl
  | some p =>
    simp only
    cases parseSubscriptionPermissionsLocked p res <;> rfl

/-- C2: HasPermission allows everyone on a nil matrix, denies a subscriber
with no entry, allows an AllTracks entry, and otherwise allows exactly the
tracks on the allowlist. -/
theorem c2_hasPermission_characterization
    (m : Option (List (String × TrackPermission))) (trackID subIdentity : String) :
    hasPermissionLocked m trackID subIdentity = true ↔
      (m = none ∨ ∃ p, (m.bind fun mm => mm.lookup subIdentity) = some p ∧
        (p.allTracks = true ∨ trackID ∈ p.trackSids)) := by
  cases m with
  | none => simp [hasPermissionLocked]
  | some mm =>
    cases h : mm.lookup subIdentity with
    | none => simp [hasPermissionLocked, h]
    | some p =>
      simp [hasPermissionLocked, h, List.any_eq_true]

/-- C10: a freshly constructed UpTrackManager allows every subscriber on
every track (nil matrix) and reports no permission and no version. -/
theorem c10_initial_permission_state (trackID subIdentity : String) :
    hasPermissionLocked newUpTrackManager.subscriberPermissions trackID subIdentity = true
      ∧ subscriptionPermissionSnapshot newUpTrackManager = (none, none) :=
  ⟨rfl, rfl⟩

/-- C5: on an SVC receiver every layer index resolves to the same buffer as
the highest spatial index, and ReadRTP returns ErrBufferNotFound exactly
when the resolved buffer is absent. -/
theorem c5_svc_readRTP_redirect {β : Type} (buffers : List (Option β))
    (getPacket : β → Nat → Except Unit Nat) (layer : Nat) (sn : Nat) :
    getBufferLocked true buffers (Int.ofNat layer)
        = getBufferLocked true buffers (DefaultMaxLayerSpatial : Int)
      ∧ (readRTP true buffers getPacket layer sn = Except.error ReadErr.bufferNotFound
          ↔ getBufferLocked true buffers (Int.ofNat layer) = (none : Option β)) := by
  refine ⟨rfl, ?_⟩
  unfold readRTP
  cases h : getBufferLocked true buffers (Int.ofNat layer) with
  | none => simp
  | some b => cases hg : getPacket b sn <;> simp [hg]

/-- C3: with a version already held, UpdateSubscriptionPermission ignores a
non-nil version that is not strictly after it — the state is returned
untouched, the call returns nil and no revocation runs — while a strictly
newer version is adopted. -/
theorem c3_version_monotonic (u : UpTrackManagerState)
    (sp : Option SubscriptionPermission) (res : String → Option String)
    (gen : TimedVersion) (cur tv : TimedVersion)
    (h : u.subscriptionPermissionVersion = some cur) :
    (tvAfter tv cur = false →
        updateSubscriptionPermission u sp (some tv) res gen = (u, Except.ok (), false))
      ∧ (tvAfter tv cur = true →
        (updateSubscriptionPermission u sp (some tv) res gen).1.subscriptionPermissionVersion
          = some tv) := by
  constructor
  · intro hlt
    unfold updateSubscriptionPermission
    rw [h]
    simp [hlt]
  · intro hgt
    unfold updateSubscriptionPermission
    rw [h]
    simp only [hgt, if_true]
    rw [finishUpdate_version]
    simp [tvUpdate, hgt]

/-- A concrete manager state holding version (5, 5) for the C3 witness. -/
def uC3 : UpTrackManagerState :=
  { subscriptionPermission := some ⟨true, []⟩
    subscriptionPermissionVersion := some ⟨5, 5⟩
    subscriberPermissions := none }

/-- Witness for C3 at version (5, 5): the stale version (4, 0) is a no-op
and the newer version (6, 0) is adopted. -/
theorem c3_version_monotonic_witness :
    updateSubscriptionPermission uC3 none (some ⟨4, 0⟩) (fun _ => none) ⟨9, 9⟩
        = (uC3, Except.ok (), false)
      ∧ (updateSubscriptionPermission uC3 none (some ⟨6, 0⟩) (fun _ => none)
          ⟨9, 9⟩).1.subscriptionPermissionVersion = some ⟨6, 0⟩ :=
  ⟨(c3_version_monotonic uC3 none (fun _ => none) ⟨9, 9⟩ ⟨5, 5⟩ ⟨4, 0⟩ rfl).1 (by decide),
   (c3_version_monotonic uC3 none (fun _ => none) ⟨9, 9⟩ ⟨5, 5⟩ ⟨6, 0⟩ rfl).2 (by decide)⟩

/-- A permission list containing an entry with neither identity nor SID
makes the parse loop fail with needsId no matter the accumulator. -/
theorem parsePerms_needsId (resolver : String → Option String)
    (l : List TrackPermission)
    (h : ∃ tp ∈ l, tp.participantIdentity = "" ∧ tp.participantSid = "") :
    ∀ acc, parsePerms resolver l acc = Except.error PermErr.needsId := by
  induction l with
  | nil => simp at h
  | cons tp rest ih =>
    intro acc
    rcases h with ⟨e, he, hid, hsid⟩
    rcases List.mem_cons.mp he with rfl | hmem
    · simp [parsePerms, hid, hsid]
    · have htail : ∃ tp ∈ rest, tp.participantIdentity = "" ∧ tp.participantSid = "" :=
        ⟨e, hmem, hid, hsid⟩
      by_cases h1 : tp.participantIdentity = ""
      · by_cases h2 : tp.participantSid = ""
        · simp [parsePerms, h1, h2]
        · simp only [parsePerms, h1, if_true, h2, if_false]
          cases resolver tp.participantSid <;> exact ih htail _
      · simp only [parsePerms, h1, if_false]
        exact ih htail _

/-- C4 (amended): with AllParticipants false, a permission containing an
entry with neither identity nor SID, and a version that passes the
monotonicity gate, UpdateSubscriptionPermission returns the needsId error,
retains the previous matrix, and attempts no revocation. -/
theorem c4_needsId_retains_matrix (u : UpTrackManagerState)
    (sp : SubscriptionPermission) (tv : Option TimedVersion)
    (res : String → Option String) (gen : TimedVersion)
    (hall : sp.allParticipants = false)
    (hmem : ∃ tp ∈ sp.trackPermissions,
      tp.participantIdentity = "" ∧ tp.participantSid = "")
    (hver : versionOk u tv = true) :
    (updateSubscriptionPermission u (some sp) tv res gen).2.1
        = Except.error PermErr.needsId
      ∧ (updateSubscriptionPermission u (some sp) tv res gen).1.subscriberPermissions
        = u.subscriberPermissions
      ∧ (updateSubscriptionPermission u (some sp) tv res gen).2.2 = false := by
  have hparse : parseSubscriptionPermissionsLocked sp res
      = Except.error PermErr.needsId := by
    unfold parseSubscriptionPermissionsLocked
    rw [hall]
    simp [parsePerms_needsId res sp.trackPermissions hmem, Except.map]
  have hfin : ∀ v : UpTrackManagerState,
      v.subscriberPermissions = u.subscriberPermissions →
      (finishUpdate v (some sp) res).2.1 = Except.error PermErr.needsId
        ∧ (finishUpdate v (some sp) res).1.subscriberPermissions
          = u.subscriberPermissions
        ∧ (finishUpdate v (some sp) res).2.2 = false := by
    intro v hv
    unfold finishUpdate
    simp [hparse, hv]
  unfold updateSubscriptionPermission
  cases htv : tv with
  | none =>
    cases hcur : u.subscriptionPermissionVersion <;>
      · simp only [hcur]
        exact hfin _ rfl
  | some t =>
    cases hcur : u.subscriptionPermissionVersion with
    | none =>
      simp only [hcur]
      exact hfin _ rfl
    | some cur =>
      have : tvAfter t cur = true := by
        have := hver
        rw [htv] at this
        simpa [versionOk, hcur] using this
      simp only [hcur, this, if_true]
      exact hfin _ rfl

/-- A matrix with one entry for p1, the previous value C4 exercises. -/
def matC4 : List (String × TrackPermission) := [("p1", ⟨"p1", "", true, []⟩)]

/-- A manager state already holding that matrix and no version. -/
def uC4 : UpTrackManagerState :=
  { subscriptionPermission := none
    subscriptionPermissionVersion := none
    subscriberPermissions := some matC4 }

/-- A permission entry with neither identity nor SID. -/
def emptyEntry : TrackPermission := ⟨"", "", false, []⟩

/-- Counterexample to C4 as stated: a non-nil permission whose
TrackPermissions contain an entry with both identity and SID empty, but
with AllParticipants true — the call succeeds (no needsId error) and the
matrix is replaced by nil rather than retained. -/
theorem c4_counterexample :
    (updateSubscriptionPermission uC4 (some ⟨true, [emptyEntry]⟩) none
        (fun _ => none) ⟨1, 1⟩).2.1 = Except.ok ()
      ∧ (updateSubscriptionPermission uC4 (some ⟨true, [emptyEntry]⟩) none
        (fun _ => none) ⟨1, 1⟩).1.subscriberPermissions = none
      ∧ uC4.subscriberPermissions = some matC4 :=
  ⟨rfl, rfl, rfl⟩

/-- Witness for C4 (amended): same failing entry with AllParticipants false
and no version held — the error is returned and the matrix survives. -/
theorem c4_needsId_retains_matrix_witness :
    (updateSubscriptionPermission uC4 (some ⟨false, [emptyEntry]⟩) none
        (fun _ => none) ⟨1, 1⟩).2.1 = Except.error PermErr.needsId
      ∧ (updateSubscriptionPermission uC4 (some ⟨false, [emptyEntry]⟩) none
        (fun _ => none) ⟨1, 1⟩).1.subscriberPermissions = uC4.subscriberPermissions
      ∧ (updateSubscriptionPermission uC4 (some ⟨false, [emptyEntry]⟩) none
        (fun _ => none) ⟨1, 1⟩).2.2 = false :=
  c4_needsId_retains_matrix uC4 ⟨false, [emptyEntry]⟩ none (fun _ => none) ⟨1, 1⟩
    rfl ⟨emptyEntry, by simp [emptyEntry]⟩ rfl

/-- C9 (amended): setDesired(true) always restamps subStartedAt to now, but
clears numAttempts only when desired actually changes from false to true;
when the subscription was already desired the attempt counter is left
alone and the call reports no change. -/
theorem c9_setDesired_true (s : TrackSubM) (now : Int) :
    (setDesiredM s now true).1.subStartedAt = some now
      ∧ (setDesiredM s now true).1.desired = true
      ∧ (setDesiredM s now true).1.numAttempts
          = (if s.desired then s.numAttempts else 0)
      ∧ (setDesiredM s now true).2 = !s.desired := by
  cases h : s.desired <;> simp [setDesiredM, h]

/-- A subscription already desired with five failed attempts. -/
def sC9 : TrackSubM :=
  { desired := true
    hasPermission := true
    hasChangedNotifier := true
    hasRemovedNotifier := false
    hasSubscribedTrack := false
    eventSent := false
    numAttempts := 5
    bound := false
    subStartedAt := some 0 }

/-- Counterexample to C9 as stated: calling setDesired(true) on an already
desired subscription leaves numAttempts at 5 instead of clearing it. -/
theorem c9_counterexample :
    (setDesiredM sC9 7 true).1.numAttempts = 5 ∧ ((5 : Int) ≠ 0) :=
  ⟨rfl, by decide⟩

/-- One loop iteration produces exactly one broadcast for its packet, at
that packet's forwarding layer, and none for any other packet. -/
theorem count_forwardOne_broadcast (layer : Int) (trk red : Bool)
    (p q : ExtPacket) :
    (forwardOne layer trk red q).count
        (FwdEvent.broadcast p (forwardSpatialLayer layer p))
      = if q = p then 1 else 0 := by
  by_cases hqp : q = p
  · subst hqp
    simp only [forwardOne, List.count_append, if_pos rfl]
    split <;> split <;>
      simp [List.count_cons, List.count_nil, beq_iff_eq]
  · simp only [forwardOne, List.count_append, if_neg hqp]
    split <;> split <;>
      simp [List.count_cons, List.count_nil, beq_iff_eq, hqp]

/-- One loop iteration writes to the RED sidecar exactly once for its own
packet when the writer is set, never otherwise. -/
theorem count_forwardOne_redWrite (layer : Int) (trk red : Bool)
    (p q : ExtPacket) :
    (forwardOne layer trk red q).count
        (FwdEvent.redWrite p (forwardSpatialLayer layer p))
      = if q = p ∧ red = true then 1 else 0 := by
  by_cases hqp : q = p
  · subst hqp
    cases red <;>
      · simp only [forwardOne, List.count_append]
        split <;> simp [List.count_cons, List.count_nil, beq_iff_eq]
  · cases red <;>
      · simp only [forwardOne, List.count_append]
        split <;> simp [List.count_cons, List.count_nil, beq_iff_eq, hqp]

/-- C1: every packet read by the per-layer forwarding loop is broadcast with
spatialLayer equal to its own Spatial index when that is at least zero and
the loop layer otherwise; within one iteration the only delivery events are
that single broadcast followed, exactly when the RED packet writer is set,
by one RED write of the same packet and layer; over a whole episode the
broadcast and RED write for a packet each happen once per occurrence of the
packet. -/
theorem c1_forward_broadcast_red (layer : Int) (trackerAtLayer redSet : Bool)
    (p : ExtPacket) (pkts : List ExtPacket) :
    (forwardOne layer trackerAtLayer redSet p).filter isDeliveryEvt
        = FwdEvent.broadcast p (forwardSpatialLayer layer p)
            :: (if redSet then [FwdEvent.redWrite p (forwardSpatialLayer layer p)] else [])
      ∧ (forwardTrace layer trackerAtLayer redSet pkts).count
          (FwdEvent.broadcast p (forwardSpatialLayer layer p)) = pkts.count p
      ∧ (forwardTrace layer trackerAtLayer redSet pkts).count
          (FwdEvent.redWrite p (forwardSpatialLayer layer p))
        = (if redSet then pkts.count p else 0) := by
  refine ⟨?_, ?_, ?_⟩
  · simp only [forwardOne, List.filter_append]
    split <;> split <;> simp [isDeliveryEvt]
  · induction pkts with
    | nil => simp [forwardTrace]
    | cons q rest ih =>
      simp only [forwardTrace, List.flatMap_cons, List.count_append,
        List.count_cons] at ih ⊢
      rw [count_forwardOne_broadcast]
      rw [show (rest.flatMap (forwardOne layer trackerAtLayer redSet)).count
            (FwdEvent.broadcast p (forwardSpatialLayer layer p)) = rest.count p from ih]
      by_cases hqp : q = p <;>
        simp [hqp, List.count_cons, beq_iff_eq, Nat.add_comm]
  · induction pkts with
    | nil => simp [forwardTrace]
    | cons q rest ih =>
      simp only [forwardTrace, List.flatMap_cons, List.count_append,
        List.count_cons] at ih ⊢
      rw [count_forwardOne_redWrite]
      cases redSet with
      | false =>
        simpa using ih
      | true =>
        simp only [if_true] at ih ⊢
        rw [show (rest.flatMap (forwardOne layer trackerAtLayer true)).count
              (FwdEvent.redWrite p (forwardSpatialLayer layer p)) = rest.count p from ih]
        by_cases hqp : q = p <;>
          simp [hqp, List.count_cons, beq_iff_eq, Nat.add_comm]

/-- C6: reconciling a NeedSubscribe subscription that fails with
TrackNotFound past notFoundTimeout records the one TrackSubscribeFailed
event (eventSent guard, isUserError true), flips desired to false, queues a
reconcile, and deletes nothing; no other subscribe outcome ever changes the
desired state. -/
theorem c6_trackNotFound_unsubscribes (s : TrackSubM)
    (now nfTimeout subTimeout t0 : Int)
    (hd : s.desired = true) (ht : s.hasSubscribedTrack = false)
    (he : s.eventSent = false) (hn : s.numAttempts ≠ 0)
    (hs : s.subStartedAt = some t0) (htime : now - t0 > nfTimeout) :
    (reconcileSub true s now nfTimeout subTimeout (some SubErr.trackNotFound)).1.desired
        = false
      ∧ (reconcileSub true s now nfTimeout subTimeout
          (some SubErr.trackNotFound)).2.1.failures = [(SubErr.trackNotFound, true)]
      ∧ (reconcileSub true s now nfTimeout subTimeout
          (some SubErr.trackNotFound)).1.eventSent = true
      ∧ (reconcileSub true s now nfTimeout subTimeout
          (some SubErr.trackNotFound)).2.1.queuedReconcile = true
      ∧ (reconcileSub true s now nfTimeout subTimeout
          (some SubErr.trackNotFound)).2.2 = false
      ∧ (∀ (s2 : TrackSubM) (canRec : Bool) (now2 : Int) (res : Option SubErr),
          res ≠ some SubErr.trackNotFound →
          (reconcileSub canRec s2 now2 nfTimeout subTimeout res).1.desired = s2.desired) := by
  have hnb : (s.numAttempts == 0) = false := by simpa using hn
  have hne : needsSubscribe s = true := by simp [needsSubscribe, hd, ht]
  have hmre : ∀ (x : TrackSubM) (e : SubErr) (b : Bool),
      (maybeRecordError x e b).1.desired = x.desired := by
    intro x e b
    unfold maybeRecordError
    split <;> rfl
  have hrad : ∀ (x : TrackSubM) (n : Int) (b : Bool),
      (recordAttempt x n b).desired = x.desired := by
    intro x n b
    unfold recordAttempt
    split
    · rfl
    · split <;> rfl
  refine ⟨?_, ?_, ?_, ?_, ?_, ?_⟩
  · simp [reconcileSub, hne, isRetriableErr, recordAttempt, hnb, durationSinceStart,
      hs, maybeRecordError, he, setDesiredM, hd, htime]
  · simp [reconcileSub, hne, isRetriableErr, recordAttempt, hnb, durationSinceStart,
      hs, maybeRecordError, he, htime]
  · simp [reconcileSub, hne, isRetriableErr, recordAttempt, hnb, durationSinceStart,
      hs, maybeRecordError, he, setDesiredM, hd, htime]
  · simp [reconcileSub, hne, isRetriableErr, recordAttempt, hnb, durationSinceStart,
      hs, maybeRecordError, he, htime]
  · simp [reconcileSub, hne, isRetriableErr, recordAttempt, hnb, durationSinceStart,
      hs, maybeRecordError, he, htime]
  · intro s2 canRec now2 res hres
    cases canRec with
    | false => simp [reconcileSub]
    | true =>
      unfold reconcileSub
      rw [if_pos rfl]
      by_cases h1 : needsSubscribe s2 = true
      · rw [if_pos h1]
        cases res with
        | none => simp [hrad]
        | some err =>
          have herr : (err == SubErr.trackNotFound) = false := by
            cases err <;> simp_all
          dsimp only
          split_ifs <;> simp_all [hmre, hrad]
      · rw [if_neg h1]
        by_cases h2 : needsUnsubscribe s2 = true
        · rw [if_pos h2]
        · rw [if_neg h2]
          by_cases h3 : needsBind s2 = true
          · rw [if_pos h3]
            split_ifs <;> simp [hmre]
          · rw [if_neg h3]

/-- A desired, unattached subscription with three failed attempts that
started at instant 0. -/
def sC6 : TrackSubM :=
  { desired := true
    hasPermission := true
    hasChangedNotifier := false
    hasRemovedNotifier := false
    hasSubscribedTrack := false
    eventSent := false
    numAttempts := 3
    bound := false
    subStartedAt := some 0 }

/-- Witness for C6 at instant 100 with notFoundTimeout 10: the TrackNotFound
failure flips desired and emits the one failure event, while another error
leaves a fresh subscription's desired flag alone. -/
theorem c6_trackNotFound_unsubscribes_witness :
    (reconcileSub true sC6 100 10 50 (some SubErr.trackNotFound)).1.desired = false
      ∧ (reconcileSub true sC6 100 10 50 (some SubErr.trackNotFound)).2.1.failures
          = [(SubErr.trackNotFound, true)]
      ∧ (reconcileSub true newTrackSub 5 10 50 (some SubErr.otherErr)).1.desired
          = newTrackSub.desired := by
  have h := c6_trackNotFound_unsubscribes sC6 100 10 50 0 rfl rfl rfl
    (by decide) rfl (by decide)
  exact ⟨h.1, h.2.1, h.2.2.2.2.2 newTrackSub true 5 (some SubErr.otherErr) (by decide)⟩

/-- C8 (amended): SubscribeToTrack then UnsubscribeFromTrack before any
resolver call leaves, after reconciliation, the map entry in place in the
Idle state (desired false, no subscribed track, only subStartedAt stamped),
and the reconcile emits no telemetry at all — in particular no
TrackSubscribed event. -/
theorem c8_sub_unsub_idle (now1 now2 now3 nfTimeout subTimeout : Int)
    (id : String) (res : Option SubErr) :
    (reconcileSubscriptionMgr
        (unsubscribeFromTrackM (subscribeToTrackM ⟨[]⟩ now1 id).1 now2 id).1
        true now3 nfTimeout subTimeout id res).1.subscriptions.lookup id
      = some { newTrackSub with subStartedAt := some now1 }
    ∧ (reconcileSubscriptionMgr
        (unsubscribeFromTrackM (subscribeToTrackM ⟨[]⟩ now1 id).1 now2 id).1
        true now3 nfTimeout subTimeout id res).2 = [] := by
  simp [reconcileSubscriptionMgr, unsubscribeFromTrackM, subscribeToTrackM,
    setDesiredM, newTrackSub, insertEntry, reconcileSub, needsSubscribe,
    needsUnsubscribe, needsBind, noEffects, effectsToEvents, List.lookup]

/-- Counterexample to C8 as stated: after subscribe, unsubscribe and a
reconcile with no resolver call ever made, the subscription map still holds
the entry for the track — it is not removed. -/
theorem c8_counterexample :
    ((reconcileSubscriptionMgr
        (unsubscribeFromTrackM (subscribeToTrackM ⟨[]⟩ 0 "t").1 0 "t").1
        true 1 10 10 "t" none).1.subscriptions.lookup "t").isSome = true := by
  decide

/-- Unfolding a successful layerSR lookup into its buffer, report and
non-zero NTP components. -/
theorem layerSR_some (isSVC : Bool) (bufs : List (Option BufferSR)) (l : Int)
    (sr : SenderReportData) (h : layerSR isSVC bufs l = some sr) :
    ∃ b, getBufferLocked isSVC bufs l = some b ∧ b.senderReport = some sr
      ∧ sr.ntpTimestamp ≠ 0 := by
  unfold layerSR at h
  cases hgb : getBufferLocked isSVC bufs l with
  | none => rw [hgb] at h; simp at h
  | some b =>
    rw [hgb] at h
    dsimp only at h
    cases hsr : b.senderReport with
    | none => rw [hsr] at h; simp at h
    | some sr2 =>
      rw [hsr] at h
      dsimp only at h
      by_cases h0 : sr2.ntpTimestamp = 0
      · simp [h0] at h
      · rw [if_neg h0] at h
        cases h
        exact ⟨b, rfl, hsr, h0⟩

/-- C7 (amended): GetReferenceLayerRTPTimestamp returns ts unchanged when
layer = referenceLayer; errors exactly when (the layers differing) either
side is missing its buffer, its sender report, or has NTP zero; and
otherwise returns (ts + rtpR - rtpL - trunc((ntpR - ntpL) / 2^32 *
clockRate)) mod 2^32, the NTP difference taken as a signed 64-bit value and
the scaled offset truncated toward zero as the uint32 float conversion
does. -/
theorem c7_refTimestamp (isSVC : Bool) (bufs : List (Option BufferSR))
    (clockRate ts : Nat) (layer referenceLayer : Int) :
    (layer = referenceLayer →
        getReferenceLayerRTPTimestamp isSVC bufs clockRate ts layer referenceLayer
          = Except.ok ts)
    ∧ ((∃ e, getReferenceLayerRTPTimestamp isSVC bufs clockRate ts layer referenceLayer
          = Except.error e)
        ↔ layer ≠ referenceLayer ∧
            (layerSR isSVC bufs layer = none ∨ layerSR isSVC bufs referenceLayer = none))
    ∧ (∀ srL srR : SenderReportData, layer ≠ referenceLayer →
        layerSR isSVC bufs layer = some srL →
        layerSR isSVC bufs referenceLayer = some srR →
        ts < 2 ^ 32 → srL.rtpTimestamp < 2 ^ 32 → srR.rtpTimestamp < 2 ^ 32 →
        getReferenceLayerRTPTimestamp isSVC bufs clockRate ts layer referenceLayer
          = Except.ok ((((ts : Int) + srR.rtpTimestamp - srL.rtpTimestamp
              - ratTrunc ((uint64SubToInt64 srR.ntpTimestamp srL.ntpTimestamp : ℚ)
                  / 2 ^ 32 * (clockRate : ℚ))) % (2 ^ 32)).toNat)) := by
  refine ⟨?_, ?_, ?_⟩
  · intro h
    simp [getReferenceLayerRTPTimestamp, h]
  · by_cases hlr : layer = referenceLayer
    · simp [getReferenceLayerRTPTimestamp, hlr]
    · simp only [getReferenceLayerRTPTimestamp, if_neg hlr, ne_eq, hlr,
        not_false_eq_true, true_and]
      cases hgbL : getBufferLocked isSVC bufs layer with
      | none => simp [layerSR, hgbL]
      | some bL =>
        cases hsrL : bL.senderReport with
        | none => simp [layerSR, hgbL, hsrL]
        | some srL =>
          by_cases hnL : srL.ntpTimestamp = 0
          · simp [layerSR, hgbL, hsrL, hnL]
          · simp only [layerSR, hgbL, hsrL, if_neg hnL]
            cases hgbR : getBufferLocked isSVC bufs referenceLayer with
            | none => simp [hgbR]
            | some bR =>
              cases hsrR : bR.senderReport with
              | none => simp [hsrR]
              | some srR =>
                by_cases hnR : srR.ntpTimestamp = 0
                · simp [hsrR, hnR]
                · simp [hsrR, if_neg hnR, hnR]
  · intro srL srR hlr hL hR hts hrl hrr
    obtain ⟨bL, hgbL, hsrL, hnL⟩ := layerSR_some isSVC bufs layer srL hL
    obtain ⟨bR, hgbR, hsrR, hnR⟩ := layerSR_some isSVC bufs referenceLayer srR hR
    simp only [getReferenceLayerRTPTimestamp, if_neg hlr, hgbL, hsrL, hgbR, hsrR,
      if_neg hnL, if_neg hnR]
    congr 1
    generalize ratTrunc ((uint64SubToInt64 srR.ntpTimestamp srL.ntpTimestamp : ℚ)
        / 2 ^ 32 * (clockRate : ℚ)) = S
    have h32n : (2 : ℕ) ^ 32 = 4294967296 := by norm_num
    have h32z : (2 : ℤ) ^ 32 = 4294967296 := by norm_num
    rw [h32n, h32z]
    have hu0 : (((S % 4294967296).toNat : ℕ) : Int) = S % 4294967296 :=
      Int.toNat_of_nonneg (Int.emod_nonneg S (by norm_num))
    generalize hgu : (S % 4294967296).toNat = u at hu0
    have hsub : (srL.rtpTimestamp + u) % 4294967296
        ≤ srR.rtpTimestamp % 4294967296 + 4294967296 := by
      have := Nat.mod_lt (srL.rtpTimestamp + u) (show 0 < 4294967296 by norm_num)
      omega
    zify [hsub]
    have hr : ((((ts : Int) + srR.rtpTimestamp - srL.rtpTimestamp - S)
          % 4294967296).toNat : Int)
        = ((ts : Int) + srR.rtpTimestamp - srL.rtpTimestamp - S) % 4294967296 :=
      Int.toNat_of_nonneg (Int.emod_nonneg _ (by norm_num))
    rw [hr]
    omega

/-- Two layer buffers whose sender reports are 3/4 second apart in NTP time
(dyadic, so float64 arithmetic on them is exact). -/
def bufsC7 : List (Option BufferSR) :=
  [some ⟨some ⟨2 ^ 32, 1000⟩⟩, some ⟨some ⟨2 ^ 32 + 3 * 2 ^ 30, 5000⟩⟩, none]

/-- Counterexample to C7 as stated: with clock rate 2 the scaled NTP offset
is exactly 1.5; the code truncates it to 1 and returns 23999 where the
claimed round-based formula yields 23998. -/
theorem c7_counterexample :
    getReferenceLayerRTPTimestamp false bufsC7 2 20000 0 1 = Except.ok 23999
      ∧ specRefTimestamp ⟨2 ^ 32, 1000⟩ ⟨2 ^ 32 + 3 * 2 ^ 30, 5000⟩ 2 20000 = 23998
      ∧ (23999 : ℕ) ≠ 23998 := by
  have hd : uint64SubToInt64 (2 ^ 32 + 3 * 2 ^ 30) (2 ^ 32) = 3221225472 := by decide
  have hq : ((3221225472 : Int) : ℚ) / 2 ^ 32 * ((2 : ℕ) : ℚ) = 3 / 2 := by norm_num
  have ht : ratTrunc (3 / 2) = 1 := by
    unfold ratTrunc
    norm_num
    decide
  refine ⟨?_, ?_, by decide⟩
  · have h := (c7_refTimestamp false bufsC7 2 20000 0 1).2.2 ⟨2 ^ 32, 1000⟩
      ⟨2 ^ 32 + 3 * 2 ^ 30, 5000⟩ (by decide) (by decide) (by decide)
      (by norm_num) (by norm_num) (by norm_num)
    rw [hd, hq, ht] at h
    rw [h]
    norm_num
    decide
  · unfold specRefTimestamp
    rw [hd, hq]
    have hr2 : round (3 / 2 : ℚ) = 2 := by norm_num [round_eq]
    rw [hr2]
    norm_num
    decide
